import Mathlib

/-!
Shallow embedding of the zitadel persistence core:
the eventstore search-query builder and in-memory matching engine
(`eventstore` package), the generic write-model append/reduce protocol
(`command` package), and the org-member projection updater (`view` package).

Machine integers are modelled as `Nat`/`Int`; where the Go code casts a
loop index to `uint16` the truncation is made explicit with `% 65536`.
Fallible Go functions returning `(T, error)` are modelled as `T × Option GoErr`
or `Except GoErr T`.
-/

namespace Zitadel

/-- Error values produced by the `caos`/`zitadel` errors package, as used by
the embedded code paths: `ThrowInternal` wrapping a JSON decode failure,
`ThrowPreconditionFailed` with a nil cause, and opaque errors coming back
from external collaborators (store push / filter). -/
inductive GoErr where
  /-- an error returned by `json.Unmarshal` -/
  | jsonError (msg : String)
  /-- `errors.ThrowInternal(cause, id, message)`; `cause` is the wrapped error -/
  | internal (cause : Option String) (id : String) (message : String)
  /-- `errors.ThrowPreconditionFailed(nil, id, message)` -/
  | preconditionFailed (id : String) (message : String)
  /-- an opaque error from an external collaborator (store, network) -/
  | external (tag : String)
deriving DecidableEq, Repr

/-- Go `time.Time`, reduced to its instant: `sec` counts seconds since
January 1, year 1 UTC (Go's internal epoch), `nsec` the nanosecond part.
The zero `time.Time` value is `⟨0, 0⟩`. -/
structure GoTime where
  sec : Int
  nsec : Int
deriving DecidableEq, Repr

/-- Seconds between Go's internal epoch (year 1) and the Unix epoch (1970). -/
def unixToInternal : Int := 62135596800

/-- Go `Time.IsZero`: true exactly for the zero `time.Time` value. -/
def GoTime.isZero (t : GoTime) : Bool := t.sec == 0 && t.nsec == 0

/-- Go `Time.Unix()`: seconds since the Unix epoch. -/
def GoTime.unix (t : GoTime) : Int := t.sec - unixToInternal

/-- The zero `time.Time` value. -/
def GoTime.zero : GoTime := ⟨0, 0⟩

/-! ## eventstore: aggregates, commands, search queries -/

/-- `eventstore.Aggregate`: identity and tenancy metadata of a command. -/
structure Aggregate where
  typ : String
  id : String
  resourceOwner : String
  instanceID : String
deriving DecidableEq, Repr

/-- `eventstore.Command` as seen by the matching engine: it exposes
`Aggregate()` and its event type; the duck-typed `sequencer` capability
(`Sequence() uint64`) is an optional field, `none` when the concrete
command does not implement `sequencer`. -/
structure Command where
  aggregate : Aggregate
  eventType : String
  sequence : Option Nat
deriving DecidableEq, Repr

/-- `eventstore.SearchQuery`: one OR-branch of a builder; all its filter
fields are AND-connected. The back-pointer to the owning builder is not
modelled (it only serves the fluent API). -/
structure SearchQuery where
  aggregateTypes : List String
  aggregateIDs : List String
  eventTypes : List String
deriving DecidableEq, Repr

/-- `eventstore.Columns` is a Go `int8`; `Validate` only compares, so the
embedding uses `Int` (the constants below are typed `Int` directly so
arithmetic automation sees through the alias). -/
abbrev Columns := Int

/-- `ColumnsEvent`: all fields of an event (iota + 1). -/
def ColumnsEvent : Int := 1

/-- `ColumnsMaxSequence`: the latest sequence of the filtered events. -/
def ColumnsMaxSequence : Int := 2

/-- `ColumnsInstanceIDs`: the instance ids of the filtered events. -/
def ColumnsInstanceIDs : Int := 3

/-- the (private) sentinel ending the `Columns` enumeration. -/
def columnsCount : Int := 4

/-- `Columns.Validate`: precondition-failed error when `c <= 0 || c >= columnsCount`. -/
def Columns.Validate (c : Int) : Option GoErr :=
  if c ≤ 0 ∨ columnsCount ≤ c then
    some (.preconditionFailed "REPOS-x8R35" "column out of range")
  else
    none

/-- `eventstore.SearchQueryBuilder`. The `tx *sql.Tx` handle is external
state and not part of the embedding; every other field is kept. -/
structure SearchQueryBuilder where
  columns : Columns
  limit : Nat
  offset : Nat
  desc : Bool
  resourceOwner : String
  instanceID : Option String
  editorUser : String
  queries : List SearchQuery
  allowTimeTravel : Bool
  positionAfter : Float
  awaitOpenTransactions : Bool
  creationDateAfter : GoTime
  creationDateBefore : GoTime
  eventSequenceGreater : Nat

/-- `NewSearchQueryBuilder(columns)`: zero-valued builder with the given columns. -/
def NewSearchQueryBuilder (columns : Columns) : SearchQueryBuilder where
  columns := columns
  limit := 0
  offset := 0
  desc := false
  resourceOwner := ""
  instanceID := none
  editorUser := ""
  queries := []
  allowTimeTravel := false
  positionAfter := 0.0
  awaitOpenTransactions := false
  creationDateAfter := GoTime.zero
  creationDateBefore := GoTime.zero
  eventSequenceGreater := 0

/-- `(*SearchQueryBuilder).Limit`. -/
def SearchQueryBuilder.Limit (b : SearchQueryBuilder) (limit : Nat) : SearchQueryBuilder :=
  { b with limit := limit }

/-- `(*SearchQueryBuilder).Offset`. -/
def SearchQueryBuilder.Offset (b : SearchQueryBuilder) (offset : Nat) : SearchQueryBuilder :=
  { b with offset := offset }

/-- `(*SearchQueryBuilder).ResourceOwner`. -/
def SearchQueryBuilder.ResourceOwner (b : SearchQueryBuilder) (resourceOwner : String) :
    SearchQueryBuilder :=
  { b with resourceOwner := resourceOwner }

/-- `(*SearchQueryBuilder).InstanceID`: always overwrites the prior value. -/
def SearchQueryBuilder.InstanceID (b : SearchQueryBuilder) (instanceID : String) :
    SearchQueryBuilder :=
  { b with instanceID := some instanceID }

/-- `(*SearchQueryBuilder).SequenceGreater`. -/
def SearchQueryBuilder.SequenceGreater (b : SearchQueryBuilder) (sequence : Nat) :
    SearchQueryBuilder :=
  { b with eventSequenceGreater := sequence }

/-- `(*SearchQueryBuilder).CreationDateAfter`: a zero-valued or epoch-zero
timestamp is ignored, otherwise the lower bound is set. -/
def SearchQueryBuilder.CreationDateAfter (b : SearchQueryBuilder) (creationDate : GoTime) :
    SearchQueryBuilder :=
  if creationDate.isZero || creationDate.unix == 0 then b
  else { b with creationDateAfter := creationDate }

/-- `(*SearchQueryBuilder).CreationDateBefore`: a zero-valued or epoch-zero
timestamp is ignored, otherwise the upper bound is set. -/
def SearchQueryBuilder.CreationDateBefore (b : SearchQueryBuilder) (creationDate : GoTime) :
    SearchQueryBuilder :=
  if creationDate.isZero || creationDate.unix == 0 then b
  else { b with creationDateBefore := creationDate }

/-- `(*SearchQueryBuilder).AddQuery` followed by setting the sub-query's
filter fields; the Go builder mutates in place and back-links the sub-query,
the embedding appends the finished sub-query value. -/
def SearchQueryBuilder.addFullQuery (b : SearchQueryBuilder) (q : SearchQuery) :
    SearchQueryBuilder :=
  { b with queries := b.queries ++ [q] }

/-- Modelled from the spec: the membership helper `isAggregateTypes`
(its body is not under the provided sources; the spec states the filter
"contains the command's corresponding value"). -/
def isAggregateTypes (aggregate : Aggregate) (types : List String) : Bool :=
  types.contains aggregate.typ

/-- Modelled from the spec: the membership helper `isAggregateIDs`
(its body is not under the provided sources; the spec states the filter
"contains the command's corresponding value"). -/
def isAggregateIDs (aggregate : Aggregate) (ids : List String) : Bool :=
  ids.contains aggregate.id

/-- Modelled from the spec: the membership helper `isEventTypes`
(its body is not under the provided sources; the spec states the filter
"contains the command's corresponding value"). -/
def isEventTypes (command : Command) (types : List String) : Bool :=
  types.contains command.eventType

/-- `(*SearchQuery).matches(command)`: every non-empty filter field must
contain the command's corresponding value. -/
def SearchQuery.matches (query : SearchQuery) (command : Command) : Bool :=
  if query.aggregateTypes.length > 0 && !(isAggregateTypes command.aggregate query.aggregateTypes)
    then false
  else if query.aggregateIDs.length > 0 && !(isAggregateIDs command.aggregate query.aggregateIDs)
    then false
  else if query.eventTypes.length > 0 && !(isEventTypes command query.eventTypes) then false
  else true

/-- `(*SearchQueryBuilder).matchCommand`, second gate: the instanceID filter
fails a command only when the filter is set to a non-empty value and the
command carries a different, non-empty instance ID. -/
def SearchQueryBuilder.instanceGateFails (b : SearchQueryBuilder) (command : Command) : Bool :=
  match b.instanceID with
  | none => false
  | some s => command.aggregate.instanceID != "" && s != "" && command.aggregate.instanceID != s

/-- `(*SearchQueryBuilder).matchCommand`, third gate: when the command
implements `sequencer` and `eventSequenceGreater` is set, the command's
sequence must be strictly greater. -/
def SearchQueryBuilder.sequenceGateFails (b : SearchQueryBuilder) (command : Command) : Bool :=
  match command.sequence with
  | none => false
  | some seq => 0 < b.eventSequenceGreater && seq ≤ b.eventSequenceGreater

/-- `(*SearchQueryBuilder).matchCommand`: resourceOwner, instanceID and
sequence gates, then OR over the sub-queries (vacuously true when there
are none). -/
def SearchQueryBuilder.matchCommand (b : SearchQueryBuilder) (command : Command) : Bool :=
  if b.resourceOwner != "" && command.aggregate.resourceOwner != b.resourceOwner then false
  else if b.instanceGateFails command then false
  else if b.sequenceGateFails command then false
  else if b.queries.isEmpty then true
  else b.queries.any (fun query => query.matches command)

/-- Loop body of `(*SearchQueryBuilder).Matches`: `i` is the raw loop index
(`uint16(i)` in Go, hence the `% 65536`), `acc` the matches gathered so far. -/
def SearchQueryBuilder.matchesLoop (b : SearchQueryBuilder) :
    List Command → Nat → List Command → List Command
  | [], _, acc => acc
  | command :: rest, i, acc =>
    if 0 < b.limit ∧ b.limit ≤ acc.length then acc
    else if 0 < b.offset ∧ i % 65536 < b.offset then b.matchesLoop rest (i + 1) acc
    else if b.matchCommand command then b.matchesLoop rest (i + 1) (acc ++ [command])
    else b.matchesLoop rest (i + 1) acc

/-- `(*SearchQueryBuilder).Matches(commands...)`. -/
def SearchQueryBuilder.Matches (b : SearchQueryBuilder) (commands : List Command) :
    List Command :=
  b.matchesLoop commands 0 []

/-! ## view: the org-member projection record and its updater -/

/-- Modelled from the spec: the event-type constants `es_model.OrgMemberAdded`
and `es_model.OrgMemberChanged` (their declaration is not under the provided
sources; the spec names them the "created/added" and "changed" discriminators
of the org-member stream). -/
def OrgMemberAdded : String := "org.member.added"

/-- Modelled from the spec: see `OrgMemberAdded`. -/
def OrgMemberChanged : String := "org.member.changed"

/-- The JSON payload of an event as seen by `OrgMemberView`: only the fields
tagged `userId` and `roles` are decodable into the record (every other field
carries the `json:"-"` tag); `malformed` stands for data `json.Unmarshal`
rejects, in which case Go's decoder writes nothing. -/
inductive Payload where
  | malformed (msg : String)
  | object (userId : Option String) (roles : Option (List String))
deriving DecidableEq, Repr

/-- `models.Event`, restricted to the fields `AppendEvent` reads. -/
structure Event where
  typ : String
  aggregateID : String
  sequence : Nat
  creationDate : GoTime
  data : Payload
deriving DecidableEq, Repr

/-- `view.OrgMemberView`: the denormalized org-membership read-model record. -/
structure OrgMemberView where
  userID : String
  orgID : String
  userName : String
  email : String
  firstName : String
  lastName : String
  roles : List String
  sequence : Nat
  creationDate : GoTime
  changeDate : GoTime
deriving DecidableEq, Repr

/-- `(*OrgMemberView).setRootData`: binds the owning aggregate. -/
def OrgMemberView.setRootData (r : OrgMemberView) (event : Event) : OrgMemberView :=
  { r with orgID := event.aggregateID }

/-- `(*OrgMemberView).SetData`: `json.Unmarshal(event.Data, r)`; a decode
failure is wrapped in `ThrowInternal` and the record is left as it was,
success overwrites exactly the JSON-visible fields present in the payload. -/
def OrgMemberView.SetData (r : OrgMemberView) (event : Event) : Except GoErr OrgMemberView :=
  match event.data with
  | .malformed msg =>
      .error (.internal (some msg) "MODEL-lub6s" "Could not unmarshal data")
  | .object userId roles =>
      .ok { r with userID := userId.getD r.userID, roles := roles.getD r.roles }

/-- `(*OrgMemberView).AppendEvent`: unconditionally advance the watermark
(`sequence`, `changeDate`), then dispatch on the event type. Returns the
record as Go leaves the receiver, paired with the returned error. -/
def OrgMemberView.AppendEvent (r : OrgMemberView) (event : Event) :
    OrgMemberView × Option GoErr :=
  let r := { r with sequence := event.sequence, changeDate := event.creationDate }
  if event.typ == OrgMemberAdded then
    let r := r.setRootData event
    let r := { r with creationDate := event.creationDate }
    match r.SetData event with
    | .ok r2 => (r2, none)
    | .error err => (r, some err)
  else if event.typ == OrgMemberChanged then
    match r.SetData event with
    | .ok r2 => (r2, none)
    | .error err => (r, some err)
  else
    (r, none)

/-- Modelled from the spec: `model.OrgMemberView`, the domain-model
counterpart of the view record (its declaration is not under the provided
sources); it carries the ten fields the conversion functions
`OrgMemberViewFromModel`/`OrgMemberToModel` exchange. -/
structure ModelOrgMemberView where
  userID : String
  orgID : String
  userName : String
  email : String
  firstName : String
  lastName : String
  roles : List String
  sequence : Nat
  creationDate : GoTime
  changeDate : GoTime
deriving DecidableEq, Repr

/-- `view.OrgMemberViewFromModel`: copies the ten fields from the domain
model into a fresh view record. -/
def OrgMemberViewFromModel (member : ModelOrgMemberView) : OrgMemberView where
  userID := member.userID
  orgID := member.orgID
  userName := member.userName
  email := member.email
  firstName := member.firstName
  lastName := member.lastName
  roles := member.roles
  sequence := member.sequence
  creationDate := member.creationDate
  changeDate := member.changeDate

/-- `view.OrgMemberToModel`: copies the ten fields from the view record
into a fresh domain-model value. -/
def OrgMemberToModel (member : OrgMemberView) : ModelOrgMemberView where
  userID := member.userID
  orgID := member.orgID
  userName := member.userName
  email := member.email
  firstName := member.firstName
  lastName := member.lastName
  roles := member.roles
  sequence := member.sequence
  creationDate := member.creationDate
  changeDate := member.changeDate

/-! ## command: the generic append/reduce write-model protocol

The Go code works against interfaces (`AppendReducer`, `QueryReducer`,
`existsWriteModel`) and mutates the model in place. The embedding passes
the interface methods as explicit functions over an arbitrary state type
`σ` and an arbitrary event type `ε`, and threads the state: a Go method
returning only `error` becomes `σ → σ × Option GoErr`. -/

/-- `command.AppendAndReduce(object, events...)`: append then reduce. -/
def AppendAndReduce {σ ε : Type} (appendEvents : σ → List ε → σ)
    (reduce : σ → σ × Option GoErr) (object : σ) (events : List ε) : σ × Option GoErr :=
  reduce (appendEvents object events)

/-- `(*Commands).pushAppendAndReduce`: push the commands through the store,
then fold the resulting events back into the object; a push failure is
returned as-is with the object untouched. `κ` is the command type. -/
def pushAppendAndReduce {σ ε κ : Type} (push : List κ → Except GoErr (List ε))
    (appendEvents : σ → List ε → σ) (reduce : σ → σ × Option GoErr)
    (object : σ) (cmds : List κ) : σ × Option GoErr :=
  match push cmds with
  | .error err => (object, some err)
  | .ok events => AppendAndReduce appendEvents reduce object events

/-- `command.queryAndReduce(ctx, filter, wm)`: run the write model's own
query through the filter collaborator; zero events is a success that leaves
the model untouched, otherwise append and reduce. -/
def queryAndReduce {σ ε : Type} (filter : SearchQueryBuilder → Except GoErr (List ε))
    (query : σ → SearchQueryBuilder) (appendEvents : σ → List ε → σ)
    (reduce : σ → σ × Option GoErr) (wm : σ) : σ × Option GoErr :=
  match filter (query wm) with
  | .error err => (wm, some err)
  | .ok events =>
    if events.length == 0 then (wm, none)
    else reduce (appendEvents wm events)

/-- `command.exists(ctx, filter, wm)`: replay, then report the model's
`Exists()` predicate; a replay failure yields `(false, err)`. -/
def existsCheck {σ ε : Type} (filter : SearchQueryBuilder → Except GoErr (List ε))
    (query : σ → SearchQueryBuilder) (appendEvents : σ → List ε → σ)
    (reduce : σ → σ × Option GoErr) (existsPred : σ → Bool) (wm : σ) : Bool × Option GoErr :=
  match queryAndReduce filter query appendEvents reduce wm with
  | (_, some err) => (false, some err)
  | (wm2, none) => (existsPred wm2, none)

/-! ## Auxiliary definitions for stating the claims -/

/-- Cap a list at `limit` entries, `limit = 0` meaning unlimited — the
effect of the `Matches` limit short-circuit on the collected matches. -/
def applyLimit (limit : Nat) (l : List Command) : List Command :=
  if limit = 0 then l else l.take limit

/-- Follows the spec's words (not the source): `Matches` with `offset` and
`limit` applied positionally over the *filtered* iteration order — offset
skips the first `offset` commands that satisfy the predicate. Stated only to
be compared against `SearchQueryBuilder.Matches`. -/
def specMatchesFiltered (b : SearchQueryBuilder) (commands : List Command) : List Command :=
  applyLimit b.limit ((commands.filter (fun c => b.matchCommand c)).drop b.offset)

/-- Concrete builder for the offset scenario: `offset = 1`, one sub-query
filtering on aggregate type `T`. -/
def offsetBuilder : SearchQueryBuilder :=
  ((NewSearchQueryBuilder ColumnsEvent).Offset 1).addFullQuery
    { aggregateTypes := ["T"], aggregateIDs := [], eventTypes := [] }

/-- A command of aggregate type `U`: filtered out by `offsetBuilder`. -/
def cmdU : Command :=
  { aggregate := { typ := "U", id := "1", resourceOwner := "ro", instanceID := "" }
    eventType := "u.noop", sequence := none }

/-- A command of aggregate type `T`: matched by `offsetBuilder`. -/
def cmdT : Command :=
  { aggregate := { typ := "T", id := "2", resourceOwner := "ro", instanceID := "" }
    eventType := "t.noop", sequence := none }

/-- Modelled from the spec: events of the org aggregate as consumed by the
existence write model of the "existence gate scenario" (the concrete write
model behind `exists` is not under the provided sources). -/
structure OrgEvent where
  aggregateID : String
  eventType : String
deriving DecidableEq, Repr

/-- Modelled from the spec: a minimal existence write model — it knows its
aggregate ID, buffers appended events, and its `Exists()` predicate holds
once an "added" event for its aggregate has been folded. -/
structure OrgExistsWM where
  aggregateID : String
  pending : List OrgEvent
  existsFlag : Bool
deriving DecidableEq, Repr

/-- Modelled from the spec: the write model builds its own filter — all
events of its aggregate. -/
def OrgExistsWM.query (wm : OrgExistsWM) : SearchQueryBuilder :=
  (NewSearchQueryBuilder ColumnsEvent).addFullQuery
    { aggregateTypes := ["org"], aggregateIDs := [wm.aggregateID], eventTypes := [] }

/-- Modelled from the spec: `AppendEvents` buffers the fetched events. -/
def OrgExistsWM.appendEvents (wm : OrgExistsWM) (events : List OrgEvent) : OrgExistsWM :=
  { wm with pending := wm.pending ++ events }

/-- Modelled from the spec: `Reduce` folds the buffered events — an "added"
event for the model's aggregate marks it as existing. -/
def OrgExistsWM.reduce (wm : OrgExistsWM) : OrgExistsWM × Option GoErr :=
  ({ wm with
      pending := []
      existsFlag := wm.pending.foldl
        (fun flag e =>
          if e.eventType == "org.added" && e.aggregateID == wm.aggregateID then true else flag)
        wm.existsFlag }
   , none)

/-- Modelled from the spec: the `Exists()` predicate. -/
def OrgExistsWM.existsPred (wm : OrgExistsWM) : Bool := wm.existsFlag

/-- Modelled from the spec: a fresh write model for aggregate ID `org-1`. -/
def freshOrg1 : OrgExistsWM := { aggregateID := "org-1", pending := [], existsFlag := false }

/-- A filter collaborator that finds no persisted events. -/
def filterNoEvents : SearchQueryBuilder → Except GoErr (List OrgEvent) :=
  fun _ => .ok []

/-- A filter collaborator that returns one "added" event for `org-1`. -/
def filterOrg1Added : SearchQueryBuilder → Except GoErr (List OrgEvent) :=
  fun _ => .ok [{ aggregateID := "org-1", eventType := "org.added" }]

/-! ## Theorems for the claims -/

/-- C9: `Columns.Validate` returns a precondition-failed error if and only if
the value is outside the enumerated range `{ColumnsEvent, ColumnsMaxSequence,
ColumnsInstanceIDs}` — equivalently `c ≤ 0 ∨ c ≥ columnsCount` — and returns
nil otherwise. -/
theorem C9_columns_validate (c : Int) :
    (Columns.Validate c = some (GoErr.preconditionFailed "REPOS-x8R35" "column out of range") ↔
      ¬(c = ColumnsEvent ∨ c = ColumnsMaxSequence ∨ c = ColumnsInstanceIDs))
    ∧ ((c ≤ 0 ∨ columnsCount ≤ c) ↔
      ¬(c = ColumnsEvent ∨ c = ColumnsMaxSequence ∨ c = ColumnsInstanceIDs))
    ∧ (Columns.Validate c = none ↔
      (c = ColumnsEvent ∨ c = ColumnsMaxSequence ∨ c = ColumnsInstanceIDs)) := by
  by_cases h : c ≤ 0 ∨ columnsCount ≤ c
  · have hv : Columns.Validate c =
        some (GoErr.preconditionFailed "REPOS-x8R35" "column out of range") := by
      unfold Columns.Validate
      exact if_pos h
    have hn : ¬(c = ColumnsEvent ∨ c = ColumnsMaxSequence ∨ c = ColumnsInstanceIDs) := by
      unfold columnsCount at h
      unfold ColumnsEvent ColumnsMaxSequence ColumnsInstanceIDs
      rintro (rfl | rfl | rfl) <;> rcases h with h | h <;> omega
    refine ⟨?_, iff_of_true h hn, ?_⟩
    · rw [hv]
      exact iff_of_true rfl hn
    · rw [hv]
      exact iff_of_false (by simp) hn
  · have hv : Columns.Validate c = none := by
      unfold Columns.Validate
      exact if_neg h
    have hy : c = ColumnsEvent ∨ c = ColumnsMaxSequence ∨ c = ColumnsInstanceIDs := by
      unfold columnsCount at h
      unfold ColumnsEvent ColumnsMaxSequence ColumnsInstanceIDs
      rw [not_or] at h
      obtain ⟨h1, h2⟩ := h
      have h3 : 1 ≤ c := by omega
      have h4 : c ≤ 3 := by omega
      interval_cases c <;> simp
    refine ⟨?_, iff_of_false h (not_not_intro hy), ?_⟩
    · rw [hv]
      exact iff_of_false (by simp) (not_not_intro hy)
    · rw [hv]
      exact iff_of_true rfl hy

/-- C8: `CreationDateAfter`/`CreationDateBefore` ignore a zero-valued or
epoch-zero timestamp, leaving the builder unchanged; any other timestamp
sets the corresponding bound. -/
theorem C8_creation_date_zero_guard (b : SearchQueryBuilder) (t : GoTime) :
    (t.isZero = true ∨ t.unix = 0 →
      b.CreationDateAfter t = b ∧ b.CreationDateBefore t = b)
    ∧ (t.isZero = false → t.unix ≠ 0 →
      b.CreationDateAfter t = { b with creationDateAfter := t } ∧
      b.CreationDateBefore t = { b with creationDateBefore := t }) := by
  unfold SearchQueryBuilder.CreationDateAfter SearchQueryBuilder.CreationDateBefore
  constructor
  · rintro (h | h) <;> simp [h]
  · intro h1 h2
    simp [h1, h2]

/-- Witness for C8 at the zero time and at 1970-01-01T00:00:05Z. -/
theorem C8_witness :
    (NewSearchQueryBuilder ColumnsEvent).CreationDateAfter GoTime.zero =
      NewSearchQueryBuilder ColumnsEvent
    ∧ (NewSearchQueryBuilder ColumnsEvent).CreationDateAfter ⟨unixToInternal + 5, 0⟩ =
      { NewSearchQueryBuilder ColumnsEvent with creationDateAfter := ⟨unixToInternal + 5, 0⟩ } :=
  ⟨((C8_creation_date_zero_guard (NewSearchQueryBuilder ColumnsEvent) GoTime.zero).1
      (Or.inl rfl)).1,
   ((C8_creation_date_zero_guard (NewSearchQueryBuilder ColumnsEvent) ⟨unixToInternal + 5, 0⟩).2
      (by decide) (by decide)).1⟩

/-- Witness for C9 at the concrete out-of-range column 5 and in-range
column 2. -/
theorem C9_witness :
    Columns.Validate 5 = some (GoErr.preconditionFailed "REPOS-x8R35" "column out of range")
    ∧ Columns.Validate 2 = none :=
  ⟨(C9_columns_validate 5).1.mpr (by decide),
   (C9_columns_validate 2).2.2.mpr (by decide)⟩

/-- C10: converting an `OrgMemberView` to the domain model and back is the
identity, and symmetrically for domain-model values. -/
theorem C10_roundtrip (v : OrgMemberView) (m : ModelOrgMemberView) :
    OrgMemberViewFromModel (OrgMemberToModel v) = v
    ∧ OrgMemberToModel (OrgMemberViewFromModel m) = m :=
  ⟨rfl, rfl⟩

/-- Witness for C10 at a concrete populated record. -/
theorem C10_witness :
    OrgMemberViewFromModel (OrgMemberToModel
      (OrgMemberView.mk "u" "o" "n" "e" "f" "l" ["r"] 3 ⟨1, 2⟩ ⟨3, 4⟩)) =
      OrgMemberView.mk "u" "o" "n" "e" "f" "l" ["r"] 3 ⟨1, 2⟩ ⟨3, 4⟩ :=
  (C10_roundtrip (OrgMemberView.mk "u" "o" "n" "e" "f" "l" ["r"] 3 ⟨1, 2⟩ ⟨3, 4⟩)
    (ModelOrgMemberView.mk "u" "o" "n" "e" "f" "l" ["r"] 3 ⟨1, 2⟩ ⟨3, 4⟩)).1

/-- C7: when the store's `Push` fails, `pushAppendAndReduce` returns exactly
that error and does not touch the object — the result is the untouched object
for every possible `AppendEvents`/`Reduce` implementation, so neither is
invoked; no retry happens. -/
theorem C7_push_error_propagates {σ ε κ : Type} (push : List κ → Except GoErr (List ε))
    (appendEvents : σ → List ε → σ) (reduce : σ → σ × Option GoErr)
    (object : σ) (cmds : List κ) (err : GoErr)
    (h : push cmds = .error err) :
    pushAppendAndReduce push appendEvents reduce object cmds = (object, some err) := by
  simp [pushAppendAndReduce, h]

/-- Witness for C7: a push that fails with an external store error. -/
theorem C7_witness :
    pushAppendAndReduce
      (fun _ : List Command => (.error (.external "store down") : Except GoErr (List OrgEvent)))
      (fun (n : Nat) _ => n + 1) (fun n => (n + 1, none)) 7 [cmdT]
      = (7, some (.external "store down")) :=
  C7_push_error_propagates _ _ _ _ _ _ rfl

/-- C6: a zero-result replay is a success that leaves the write model
completely unchanged — the result is `(wm, none)` for every possible
`AppendEvents`/`Reduce` implementation, so neither is invoked. -/
theorem C6_zero_result_untouched {σ ε : Type}
    (filter : SearchQueryBuilder → Except GoErr (List ε))
    (query : σ → SearchQueryBuilder) (appendEvents : σ → List ε → σ)
    (reduce : σ → σ × Option GoErr) (wm : σ)
    (h : filter (query wm) = .ok []) :
    queryAndReduce filter query appendEvents reduce wm = (wm, none) := by
  simp [queryAndReduce, h]

/-- Witness for C6: the fresh org write model with a filter returning no
events. -/
theorem C6_witness :
    queryAndReduce filterNoEvents OrgExistsWM.query OrgExistsWM.appendEvents
      OrgExistsWM.reduce freshOrg1 = (freshOrg1, none) :=
  C6_zero_result_untouched _ _ _ _ _ rfl

/-- C5: `exists` reports the model's `Exists()` predicate evaluated on the
state `queryAndReduce` produced, with no error, whenever the replay
succeeded. -/
theorem C5_exists_post_replay {σ ε : Type}
    (filter : SearchQueryBuilder → Except GoErr (List ε))
    (query : σ → SearchQueryBuilder) (appendEvents : σ → List ε → σ)
    (reduce : σ → σ × Option GoErr) (existsPred : σ → Bool) (wm wm2 : σ)
    (h : queryAndReduce filter query appendEvents reduce wm = (wm2, none)) :
    existsCheck filter query appendEvents reduce existsPred wm = (existsPred wm2, none) := by
  simp [existsCheck, h]

/-- Witness for C5: with no persisted events for `org-1` the check returns
`false`; after the filter supplies one "added" event for that aggregate the
folded model reports `true`. -/
theorem C5_witness :
    existsCheck filterNoEvents OrgExistsWM.query OrgExistsWM.appendEvents
      OrgExistsWM.reduce OrgExistsWM.existsPred freshOrg1 = (false, none)
    ∧ existsCheck filterOrg1Added OrgExistsWM.query OrgExistsWM.appendEvents
      OrgExistsWM.reduce OrgExistsWM.existsPred freshOrg1 = (true, none) :=
  ⟨C5_exists_post_replay _ _ _ _ _ _ freshOrg1 rfl,
   C5_exists_post_replay _ _ _ _ _ _ (OrgExistsWM.mk "org-1" [] true) rfl⟩

/-- C2: on an org-member event whose payload fails to decode, `AppendEvent`
returns the internal error wrapping the decode failure, the record's
watermark (`sequence`, `changeDate`) equals the event's, and the
payload-carried business fields (userID, userName, email, firstName,
lastName, roles) are unchanged. (For an "added" event the envelope-derived
identity fields `orgID`/`creationDate` are set in step 2a, as the spec
allows.) -/
theorem C2_decode_failure_watermark (r : OrgMemberView) (e : Event) (msg : String)
    (htype : e.typ = OrgMemberAdded ∨ e.typ = OrgMemberChanged)
    (hdata : e.data = .malformed msg) :
    (r.AppendEvent e).2 = some (.internal (some msg) "MODEL-lub6s" "Could not unmarshal data")
    ∧ (r.AppendEvent e).1.sequence = e.sequence
    ∧ (r.AppendEvent e).1.changeDate = e.creationDate
    ∧ (r.AppendEvent e).1.userID = r.userID
    ∧ (r.AppendEvent e).1.userName = r.userName
    ∧ (r.AppendEvent e).1.email = r.email
    ∧ (r.AppendEvent e).1.firstName = r.firstName
    ∧ (r.AppendEvent e).1.lastName = r.lastName
    ∧ (r.AppendEvent e).1.roles = r.roles := by
  rcases htype with h | h <;>
    simp [OrgMemberView.AppendEvent, OrgMemberView.SetData, OrgMemberView.setRootData,
      h, hdata, OrgMemberAdded, OrgMemberChanged]

/-- A populated view record used to exercise `AppendEvent`. -/
def exampleMember : OrgMemberView :=
  { userID := "u1", orgID := "o1", userName := "un", email := "em", firstName := "fn"
    lastName := "ln", roles := ["ORG_OWNER"], sequence := 1
    creationDate := ⟨5, 0⟩, changeDate := ⟨5, 0⟩ }

/-- A "changed" event whose payload does not decode. -/
def badEvent : Event :=
  { typ := OrgMemberChanged, aggregateID := "org-9", sequence := 9
    creationDate := ⟨9, 0⟩, data := .malformed "unexpected end of JSON input" }

/-- Witness for C2 at a concrete record and undecodable event. -/
theorem C2_witness :
    (exampleMember.AppendEvent badEvent).2 =
      some (.internal (some "unexpected end of JSON input") "MODEL-lub6s"
        "Could not unmarshal data")
    ∧ (exampleMember.AppendEvent badEvent).1.sequence = badEvent.sequence
    ∧ (exampleMember.AppendEvent badEvent).1.changeDate = badEvent.creationDate
    ∧ (exampleMember.AppendEvent badEvent).1.userID = exampleMember.userID
    ∧ (exampleMember.AppendEvent badEvent).1.userName = exampleMember.userName
    ∧ (exampleMember.AppendEvent badEvent).1.email = exampleMember.email
    ∧ (exampleMember.AppendEvent badEvent).1.firstName = exampleMember.firstName
    ∧ (exampleMember.AppendEvent badEvent).1.lastName = exampleMember.lastName
    ∧ (exampleMember.AppendEvent badEvent).1.roles = exampleMember.roles :=
  C2_decode_failure_watermark exampleMember badEvent "unexpected end of JSON input"
    (Or.inr rfl) rfl

/-- Spelled-out AND-with-vacuous-fields reading of `SearchQuery.matches`. -/
lemma searchQuery_matches_iff (q : SearchQuery) (c : Command) :
    q.matches c = true ↔
      ((q.aggregateTypes ≠ [] → c.aggregate.typ ∈ q.aggregateTypes)
        ∧ (q.aggregateIDs ≠ [] → c.aggregate.id ∈ q.aggregateIDs)
        ∧ (q.eventTypes ≠ [] → c.eventType ∈ q.eventTypes)) := by
  unfold SearchQuery.matches isAggregateTypes isAggregateIDs isEventTypes
  by_cases hat : q.aggregateTypes = [] <;> by_cases hai : q.aggregateIDs = [] <;>
    by_cases het : q.eventTypes = [] <;>
    simp [hat, hai, het, List.length_pos]

/-- C3: once the top-level resourceOwner/instanceID/sequence gates pass, a
command matches exactly when there are no sub-queries or at least one
sub-query matches (OR); a sub-query matches exactly when each of its
non-empty filter fields contains the command's corresponding value (AND,
empty fields vacuously true). -/
theorem C3_or_and_semantics (b : SearchQueryBuilder) (c : Command)
    (h1 : b.resourceOwner ≠ "" → c.aggregate.resourceOwner = b.resourceOwner)
    (h2 : b.instanceGateFails c = false)
    (h3 : b.sequenceGateFails c = false) :
    (b.matchCommand c = true ↔
      (b.queries = [] ∨ ∃ q ∈ b.queries, q.matches c = true))
    ∧ ∀ q : SearchQuery,
        (q.matches c = true ↔
          ((q.aggregateTypes ≠ [] → c.aggregate.typ ∈ q.aggregateTypes)
            ∧ (q.aggregateIDs ≠ [] → c.aggregate.id ∈ q.aggregateIDs)
            ∧ (q.eventTypes ≠ [] → c.eventType ∈ q.eventTypes))) := by
  refine ⟨?_, fun q => searchQuery_matches_iff q c⟩
  have hro : (b.resourceOwner != "" && c.aggregate.resourceOwner != b.resourceOwner) = false := by
    by_cases hb : b.resourceOwner = ""
    · simp [hb]
    · simp [hb, h1 hb]
  unfold SearchQueryBuilder.matchCommand
  rw [hro, h2, h3]
  by_cases hq : b.queries = []
  · simp [hq]
  · simp [hq, List.any_eq_true]

/-- Witness for C3 at a builder with one sub-query and a matching command. -/
theorem C3_witness :
    (offsetBuilder.matchCommand cmdT = true ↔
      (offsetBuilder.queries = [] ∨ ∃ q ∈ offsetBuilder.queries, q.matches cmdT = true))
    ∧ ∀ q : SearchQuery,
        (q.matches cmdT = true ↔
          ((q.aggregateTypes ≠ [] → cmdT.aggregate.typ ∈ q.aggregateTypes)
            ∧ (q.aggregateIDs ≠ [] → cmdT.aggregate.id ∈ q.aggregateIDs)
            ∧ (q.eventTypes ≠ [] → cmdT.eventType ∈ q.eventTypes))) :=
  C3_or_and_semantics offsetBuilder cmdT (fun h => absurd rfl h) rfl rfl

/-- C4: with the builder's instanceID filter set to a non-empty value, a
command with an empty instance ID passes the instance gate (tenant-less
commands are exempt), while a command with a different non-empty instance
ID is excluded by `matchCommand`. -/
theorem C4_instance_exemption (b : SearchQueryBuilder) (c : Command) (s : String)
    (hset : b.instanceID = some s) (hs : s ≠ "") :
    (c.aggregate.instanceID = "" → b.instanceGateFails c = false)
    ∧ (c.aggregate.instanceID ≠ "" → c.aggregate.instanceID ≠ s →
        b.matchCommand c = false) := by
  constructor
  · intro hempty
    unfold SearchQueryBuilder.instanceGateFails
    rw [hset]
    simp [hempty]
  · intro hne hdiff
    have hgate : b.instanceGateFails c = true := by
      unfold SearchQueryBuilder.instanceGateFails
      rw [hset]
      simp [hne, hs, hdiff]
    unfold SearchQueryBuilder.matchCommand
    rw [hgate]
    split <;> simp

/-- A builder filtering on instance `tenant-x`. -/
def tenantBuilder : SearchQueryBuilder :=
  (NewSearchQueryBuilder ColumnsEvent).InstanceID "tenant-x"

/-- A tenant-less command (empty instance ID). -/
def cmdNoTenant : Command :=
  { aggregate := { typ := "T", id := "1", resourceOwner := "", instanceID := "" }
    eventType := "t.noop", sequence := none }

/-- A command of the foreign tenant `tenant-y`. -/
def cmdTenantY : Command :=
  { aggregate := { typ := "T", id := "1", resourceOwner := "", instanceID := "tenant-y" }
    eventType := "t.noop", sequence := none }

/-- Witness for C4: the tenant-less command passes the gate, the
`tenant-y` command is excluded. -/
theorem C4_witness :
    tenantBuilder.instanceGateFails cmdNoTenant = false
    ∧ tenantBuilder.matchCommand cmdTenantY = false :=
  ⟨(C4_instance_exemption tenantBuilder cmdNoTenant "tenant-x" rfl (by decide)).1 rfl,
   (C4_instance_exemption tenantBuilder cmdTenantY "tenant-x" rfl (by decide)).2
     (by decide) (by decide)⟩

/-- Counterexample for C1 as stated: with `offset = 1` and the input
`[cmdU, cmdT]` where only `cmdT` satisfies the predicate, the code skips the
first raw command `cmdU` and returns `[cmdT]`, whereas offset applied over
the filtered iteration order would skip the only match and return `[]`. -/
theorem C1_counterexample :
    offsetBuilder.Matches [cmdU, cmdT] = [cmdT]
    ∧ specMatchesFiltered offsetBuilder [cmdU, cmdT] = [] := by
  constructor <;> rfl

/-- Skipping phase of the `Matches` loop: while the raw index is below the
offset, commands are dropped from the raw input unconditionally. -/
lemma matchesLoop_skip (b : SearchQueryBuilder) (hoff : b.offset < 65536) :
    ∀ (cs : List Command) (i : Nat), i < b.offset → i + cs.length ≤ 65536 →
      b.matchesLoop cs i [] = b.matchesLoop (cs.drop (b.offset - i)) b.offset [] := by
  intro cs
  induction cs with
  | nil =>
    intro i hi hb
    simp [SearchQueryBuilder.matchesLoop]
  | cons c cs ih =>
    intro i hi hb
    have hmod : i % 65536 = i := Nat.mod_eq_of_lt (lt_trans hi hoff)
    have hstep : b.matchesLoop (c :: cs) i [] = b.matchesLoop cs (i + 1) [] := by
      simp only [SearchQueryBuilder.matchesLoop]
      rw [if_neg (by simp only [List.length_nil]; omega),
        if_pos ⟨Nat.lt_of_le_of_lt (Nat.zero_le i) hi, by rw [hmod]; exact hi⟩]
    simp only [List.length_cons] at hb
    rcases Nat.lt_or_ge (i + 1) b.offset with hlt | hge
    · rw [hstep, ih (i + 1) hlt (by omega)]
      congr 1
      rw [show b.offset - i = (b.offset - (i + 1)) + 1 from by omega, List.drop_succ_cons]
    · have heq : b.offset = i + 1 := by omega
      rw [hstep, show b.offset - i = 1 from by omega, List.drop_succ_cons, List.drop_zero, heq]

/-- Collecting phase of the `Matches` loop: past the offset (or with no
offset set), the loop appends the matching commands to the accumulator,
cut off once the limit is reached. -/
lemma matchesLoop_collect (b : SearchQueryBuilder) :
    ∀ (cs : List Command) (i : Nat) (acc : List Command),
      (0 < b.offset → b.offset ≤ i) → i + cs.length ≤ 65536 →
      b.matchesLoop cs i acc =
        (if 0 < b.limit ∧ b.limit ≤ acc.length then acc
         else acc ++ (if b.limit = 0 then cs.filter (fun c => b.matchCommand c)
                      else (cs.filter (fun c => b.matchCommand c)).take (b.limit - acc.length))) := by
  intro cs
  induction cs with
  | nil =>
    intro i acc hoff hb
    simp only [SearchQueryBuilder.matchesLoop, List.filter_nil, List.take_nil, ite_self,
      List.append_nil]
  | cons c cs ih =>
    intro i acc hoff hb
    simp only [List.length_cons] at hb
    have hmod : i % 65536 = i := Nat.mod_eq_of_lt (by omega)
    have hskip : ¬(0 < b.offset ∧ i % 65536 < b.offset) := by
      rw [hmod]
      rintro ⟨h1, h2⟩
      exact absurd (hoff h1) (by omega)
    by_cases hbreak : 0 < b.limit ∧ b.limit ≤ acc.length
    · simp only [SearchQueryBuilder.matchesLoop]
      rw [if_pos hbreak, if_pos hbreak]
    · simp only [SearchQueryBuilder.matchesLoop]
      rw [if_neg hbreak, if_neg hskip, if_neg hbreak]
      have hoff1 : 0 < b.offset → b.offset ≤ i + 1 := fun h => le_trans (hoff h) (Nat.le_succ i)
      by_cases hm : b.matchCommand c = true
      · rw [if_pos hm, ih (i + 1) (acc ++ [c]) hoff1 (by omega)]
        simp only [List.filter_cons, hm, if_true, List.length_append, List.length_cons,
          List.length_nil, Nat.add_zero]
        rcases Nat.eq_zero_or_pos b.limit with hl0 | hlpos
        · rw [if_neg (by omega), if_pos hl0, if_pos hl0]
          simp
        · rcases Nat.lt_or_ge (acc.length + 1) b.limit with hlt | hge
          · rw [if_neg (by omega), if_neg (by omega), if_neg (by omega),
              show b.limit - acc.length = (b.limit - (acc.length + 1)) + 1 from by omega,
              List.take_succ_cons]
            simp
          · have hla : acc.length < b.limit := by
              rcases Nat.lt_or_ge acc.length b.limit with h | h
              · exact h
              · exact absurd ⟨hlpos, h⟩ hbreak
            have heq : b.limit = acc.length + 1 := by omega
            rw [if_pos ⟨hlpos, by omega⟩, if_neg (by omega),
              show b.limit - acc.length = 1 from by omega, List.take_succ_cons, List.take_zero]
      · rw [if_neg hm, ih (i + 1) acc hoff1 (by omega), if_neg hbreak]
        simp only [List.filter_cons, hm, if_false, Bool.false_eq_true]

/-- C1 (amended): `Matches` applies `offset` positionally over the *raw*
input order — it skips the first `offset` input commands whether or not they
satisfy the predicate — and collects matching commands from the remainder,
stopping as soon as `limit` matches have been gathered when `limit > 0`.
(The index bounds reflect the `uint16` cast of the raw loop index.) -/
theorem C1_offset_over_raw_input (b : SearchQueryBuilder) (commands : List Command)
    (hlen : commands.length ≤ 65536) (hoff : b.offset < 65536) :
    b.Matches commands =
      applyLimit b.limit ((commands.drop b.offset).filter (fun c => b.matchCommand c)) := by
  unfold SearchQueryBuilder.Matches applyLimit
  rcases Nat.eq_zero_or_pos b.offset with h0 | hpos
  · rw [matchesLoop_collect b commands 0 [] (fun h => by omega) (by omega)]
    simp only [List.length_nil, List.nil_append, Nat.sub_zero, h0, List.drop_zero]
    rw [if_neg (by omega)]
  · rw [matchesLoop_skip b hoff commands 0 hpos (by omega), Nat.sub_zero,
      matchesLoop_collect b (commands.drop b.offset) b.offset []
        (fun _ => le_refl b.offset) (by rw [List.length_drop]; omega)]
    simp only [List.length_nil, List.nil_append, Nat.sub_zero]
    rw [if_neg (by omega)]

/-- The spec's limit/offset scenario builder: `offset = 1`, `limit = 2`,
`eventSequenceGreater = 0`, one sub-query on aggregate type `T`. -/
def specScenarioBuilder : SearchQueryBuilder :=
  ((((NewSearchQueryBuilder ColumnsEvent).Offset 1).Limit 2).SequenceGreater 0).addFullQuery
    { aggregateTypes := ["T"], aggregateIDs := [], eventTypes := [] }

/-- Command `A(seq=1)` of the scenario. -/
def cmdA : Command :=
  { aggregate := { typ := "T", id := "A", resourceOwner := "", instanceID := "" }
    eventType := "t.e", sequence := some 1 }

/-- Command `B(seq=2)` of the scenario. -/
def cmdB : Command :=
  { aggregate := { typ := "T", id := "B", resourceOwner := "", instanceID := "" }
    eventType := "t.e", sequence := some 2 }

/-- Command `C(seq=3)` of the scenario. -/
def cmdC : Command :=
  { aggregate := { typ := "T", id := "C", resourceOwner := "", instanceID := "" }
    eventType := "t.e", sequence := some 3 }

/-- Witness for C1 at the spec's own scenario (`offset=1`, `limit=2`, three
matching commands): the equation holds and the result is `[cmdB, cmdC]`. -/
theorem C1_witness :
    (specScenarioBuilder.Matches [cmdA, cmdB, cmdC] =
      applyLimit specScenarioBuilder.limit
        (([cmdA, cmdB, cmdC].drop specScenarioBuilder.offset).filter
          (fun c => specScenarioBuilder.matchCommand c)))
    ∧ specScenarioBuilder.Matches [cmdA, cmdB, cmdC] = [cmdB, cmdC] :=
  ⟨C1_offset_over_raw_input specScenarioBuilder [cmdA, cmdB, cmdC] (by decide) (by decide),
   by rfl⟩

end Zitadel
